import Mathlib

/-!
Verification of the decision-layer algorithms of a pharmaceutical
manufacturing analytics backend (maintenance, yield, vision and
scheduling agents). Times, sensor readings and percentages are modelled
as rationals; Python lists as Lean lists; optional arguments as Option;
the truthiness fallback idiom (x or default) is modelled explicitly.
Randomly generated identifiers and wall-clock timestamps are omitted
from output records, since they carry no verifiable content; formatted
description strings that interpolate numeric readings are modelled by
recording the interpolated numeric payload instead.
-/

/-- Python built-in round: round half to even (bankers rounding). -/
def pyRound (q : ℚ) : ℤ :=
  let fl := ⌊q⌋
  let frac := q - fl
  if frac < 1/2 then fl
  else if 1/2 < frac then fl + 1
  else if fl % 2 = 0 then fl else fl + 1

/-! ## Maintenance agent (agents/maintenance_agent.py) -/

namespace MaintenanceConfig

def CRITICAL_HEALTH_THRESHOLD : ℚ := 50

def WARNING_HEALTH_THRESHOLD : ℚ := 70

def CRITICAL_RUL_THRESHOLD : ℚ := 100

def WARNING_RUL_THRESHOLD : ℚ := 500

def VIBRATION_THRESHOLD : ℚ := 5

def TEMPERATURE_THRESHOLD : ℚ := 65

def MOTOR_LOAD_THRESHOLD : ℚ := 90

end MaintenanceConfig

/-- SensorData record (vibration mm/s, motor load %, temperature C,
timestamp as rational instant). -/
structure SensorData where
  vibration : ℚ
  motor_load : ℚ
  temperature : ℚ
  timestamp : ℚ
deriving DecidableEq

/-- One element of the anomaly list produced by detect_anomalies.
The random id is omitted; the formatted description string is modelled
by its numeric payload: the offending reading and the threshold used. -/
structure AnomalyOut where
  source : String
  severity : String
  reading : ℚ
  threshold : ℚ
  timestamp : ℚ
deriving DecidableEq

/-- Threshold resolution x or default: a zero or missing override falls
back to the configured default (Python truthiness of 0.0 is false). -/
def resolveThreshold (override : Option ℚ) (dflt : ℚ) : ℚ :=
  match override with
  | none => dflt
  | some v => if v = 0 then dflt else v

/-- Vibration check of detect_anomalies (one sample). -/
def vibrationCheck (th : ℚ) (d : SensorData) : Option AnomalyOut :=
  if d.vibration > th then
    some ⟨"Vibration Sensor",
      if d.vibration > th * 1.5 then "high"
      else if d.vibration > th * 1.2 then "medium"
      else "low",
      d.vibration, th, d.timestamp⟩
  else none

/-- Temperature check of detect_anomalies (one sample). -/
def temperatureCheck (th : ℚ) (d : SensorData) : Option AnomalyOut :=
  if d.temperature > th then
    some ⟨"Temperature Sensor",
      if d.temperature > th + 15 then "high"
      else if d.temperature > th + 5 then "medium"
      else "low",
      d.temperature, th, d.timestamp⟩
  else none

/-- Motor load check of detect_anomalies (one sample). -/
def motorLoadCheck (th : ℚ) (d : SensorData) : Option AnomalyOut :=
  if d.motor_load > th then
    some ⟨"Motor Load Sensor",
      if d.motor_load > 95 then "high" else "medium",
      d.motor_load, th, d.timestamp⟩
  else none

/-- MaintenanceAgent.detect_anomalies: per sample, vibration then
temperature then motor load, each against its (overridable) threshold. -/
def detect_anomalies (sensor_data : List SensorData)
    (vibration_threshold temperature_threshold motor_load_threshold : Option ℚ) :
    List AnomalyOut :=
  let vt := resolveThreshold vibration_threshold MaintenanceConfig.VIBRATION_THRESHOLD
  let tt := resolveThreshold temperature_threshold MaintenanceConfig.TEMPERATURE_THRESHOLD
  let mt := resolveThreshold motor_load_threshold MaintenanceConfig.MOTOR_LOAD_THRESHOLD
  sensor_data.flatMap (fun d =>
    (vibrationCheck vt d).toList ++ (temperatureCheck tt d).toList ++
      (motorLoadCheck mt d).toList)

/-- Severity rank of an optional anomaly: none < low < medium < high. -/
def sevRank (o : Option AnomalyOut) : ℕ :=
  match o with
  | none => 0
  | some a => if a.severity = "high" then 3 else if a.severity = "medium" then 2 else 1

/-- ScheduledBatchInput: only the fields read by find_idle_window,
plus the optional status carried by the schedule records. -/
structure ScheduledBatchInput where
  start_time : ℚ
  end_time : ℚ
  status : Option String
deriving DecidableEq

/-- The window record returned by find_idle_window (dict keys start and
end; the latter is named stop since end is a Lean keyword). -/
structure IdleWindow where
  start : ℚ
  stop : ℚ
deriving DecidableEq

/-- Future part of the schedule: batches ending after now, stably
sorted by start time ascending (Python sorted with key start_time). -/
def future_schedule (schedule : List ScheduledBatchInput) (now : ℚ) :
    List ScheduledBatchInput :=
  (schedule.filter (fun b => now < b.end_time)).insertionSort
    (fun a b => a.start_time ≤ b.start_time)

/-- The scan loop of find_idle_window: walk consecutive pairs looking
for the first gap of at least the requested duration; if none is found
return the window immediately after the last batch. -/
def scanGaps (d : ℚ) : ScheduledBatchInput → List ScheduledBatchInput → IdleWindow
  | last, [] => ⟨last.end_time, last.end_time + d⟩
  | a, b :: rest =>
    if b.start_time - a.end_time ≥ d then ⟨a.end_time, a.end_time + d⟩
    else scanGaps d b rest

/-- MaintenanceAgent.find_idle_window with the wall clock now passed
explicitly. -/
def find_idle_window (schedule : List ScheduledBatchInput)
    (duration_hours : ℚ) (now : ℚ) : IdleWindow :=
  match future_schedule schedule now with
  | [] => ⟨now, now + duration_hours⟩
  | first :: rest =>
    if first.start_time - now ≥ duration_hours then ⟨now, now + duration_hours⟩
    else scanGaps duration_hours first rest

/-! ## Yield optimization agent (agents/yield_optimization_agent.py) -/

namespace YieldConfig

def DRIFT_MAGNITUDE_HIGH : ℚ := 2

def DRIFT_MAGNITUDE_MEDIUM : ℚ := 1

end YieldConfig

/-- TabletPressSignalsInput: the eight numeric process readings plus a
rational timestamp. -/
structure TabletPressSignalsInput where
  weight : ℚ
  thickness : ℚ
  hardness : ℚ
  feeder_speed : ℚ
  turret_speed : ℚ
  vacuum : ℚ
  pre_compression_force : ℚ
  main_compression_force : ℚ
  timestamp : ℚ
deriving DecidableEq

/-- DriftDetectionOutput without the random id and the wall-clock
detected_at timestamp. -/
structure DriftDetectionOutput where
  parameter : String
  direction : String
  magnitude : ℚ
  severity : String
  description : String
  recommended_action : String
deriving DecidableEq

/-- sum(i * v for i, v in enumerate(values)), starting the index at k. -/
def enumMulSum : ℕ → List ℚ → ℚ
  | _, [] => 0
  | k, v :: vs => k * v + enumMulSum (k + 1) vs

/-- The regression denominator n * sum_x2 - sum_x * sum_x of
calculate_trend. -/
def trendDenominator (values : List ℚ) : ℚ :=
  let n := values.length
  (n : ℚ) * (∑ i ∈ Finset.range n, (i : ℚ) * i) -
    (∑ i ∈ Finset.range n, (i : ℚ)) * (∑ i ∈ Finset.range n, (i : ℚ))

/-- calculate_trend: ordinary least squares slope of values against
sample index, with percent change slope*n/mean*100; returns
(slope, percent_change), both 0 for fewer than two samples or a zero
denominator, and percent change 0 for a zero mean. -/
def calculate_trend (values : List ℚ) : ℚ × ℚ :=
  let n := values.length
  if n < 2 then (0, 0)
  else
    let sum_x : ℚ := ∑ i ∈ Finset.range n, (i : ℚ)
    let sum_y := values.sum
    let sum_xy := enumMulSum 0 values
    let denominator := trendDenominator values
    if denominator = 0 then (0, 0)
    else
      let slope := ((n : ℚ) * sum_xy - sum_x * sum_y) / denominator
      let avg_value := sum_y / n
      let percent_change := if avg_value ≠ 0 then (slope * n / avg_value) * 100 else 0
      (slope, percent_change)

/-- The per-parameter body of the detect_drift loop over the window of
values of one monitored parameter. -/
def driftFor (values : List ℚ) (pname : String)
    (desc act : String → String) : Option DriftDetectionOutput :=
  let trend := calculate_trend values
  if |trend.1| > 0.01 then
    let magnitude := |trend.2|
    let direction := if trend.1 > 0 then "increasing" else "decreasing"
    let severity :=
      if magnitude > YieldConfig.DRIFT_MAGNITUDE_HIGH then "high"
      else if magnitude > YieldConfig.DRIFT_MAGNITUDE_MEDIUM then "medium"
      else "low"
    some ⟨pname, direction, magnitude, severity, desc direction, act direction⟩
  else none

/-- The five monitored parameters of detect_drift: value projection,
output parameter name (TypeScript style for the two speeds), the
description table and the recommended action table. -/
def driftParams :
    List ((TabletPressSignalsInput → ℚ) × String × (String → String) × (String → String)) :=
  [(fun s => s.weight, "weight",
      fun d => "Tablet weight " ++ d ++ " - potential fill depth adjustment needed",
      fun d => if d = "decreasing" then "Increase feeder speed slightly"
               else "Decrease feeder speed slightly"),
   (fun s => s.thickness, "thickness",
      fun d => "Thickness " ++ d ++ " - check punch wear or compression settings",
      fun d => if d = "increasing" then "Increase compression force"
               else "Decrease compression force"),
   (fun s => s.hardness, "hardness",
      fun d => "Hardness " ++ d ++ " - may affect dissolution profile",
      fun d => if d = "decreasing" then "Increase main compression force"
               else "Decrease main compression force"),
   (fun s => s.feeder_speed, "feederSpeed",
      fun _ => "Feeder speed drift detected - check hopper level",
      fun _ => "Check hopper level and material flow"),
   (fun s => s.turret_speed, "turretSpeed",
      fun _ => "Turret speed variation - verify drive belt tension",
      fun _ => "Verify drive belt tension and motor condition")]

/-- The most recent window_size signals (Python signals[-window_size:],
whose degenerate window_size = 0 case is the whole list). -/
def recentWindow (signals : List TabletPressSignalsInput) (window_size : ℕ) :
    List TabletPressSignalsInput :=
  if window_size = 0 then signals else signals.drop (signals.length - window_size)

/-- YieldOptimizationAgent.detect_drift. -/
def detect_drift (signals : List TabletPressSignalsInput) (window_size : ℕ) :
    List DriftDetectionOutput :=
  if signals.length < window_size then []
  else
    let recent_signals := recentWindow signals window_size
    driftParams.flatMap (fun p =>
      (driftFor (recent_signals.map p.1) p.2.1 p.2.2.1 p.2.2.2).toList)

/-! ## Scheduling agent (agents/scheduling_agent.py) -/

namespace SchedulingConfig

def NO_CLEANING_TIME : ℤ := 0

def PARTIAL_CLEANING_TIME : ℤ := 15

def FULL_CLEANING_TIME : ℤ := 45

def SAME_DRUG_SAME_DENSITY_SAVINGS : ℤ := 15

def SAME_DRUG_DIFF_DENSITY_SAVINGS : ℤ := 8

def DIFF_DRUG_DIFF_DENSITY_SAVINGS : ℤ := 5

def MIN_OPERATOR_SKILL_LEVEL : ℤ := 2

def MAX_MACHINE_WEAR_PERCENT : ℤ := 90

def MIN_ROOM_CLEARANCE_HOURS : ℤ := 2

def TARGET_EFFICIENCY_GAIN : ℤ := 40

def MIN_BATCH_GROUP_SIZE : ℕ := 2

end SchedulingConfig

/-- BatchOrderInput (models/scheduling.py). -/
structure BatchOrderInput where
  id : String
  batch_number : String
  product_name : String
  drug : String
  density : String
  status : String
  estimated_duration : ℤ
  priority : Option ℤ
deriving DecidableEq

/-- ScheduleGroupOutput without the random id. -/
structure ScheduleGroupOutput where
  type : String
  label : String
  batches : List BatchOrderInput
  cleaning_required : String
  cleaning_time_minutes : ℤ
  estimated_savings : ℤ
  sequence_order : ℤ
  color : String
deriving DecidableEq

/-- ProductionConditionInput (models/scheduling.py). -/
structure ProductionConditionInput where
  id : String
  unit : String
  name : String
  status : String
  detail : String
deriving DecidableEq

/-- ResourceConstraintInput (models/scheduling.py). -/
structure ResourceConstraintInput where
  min_operator_skill : Option ℤ
  max_machine_wear : Option ℤ
  required_certifications : Option (List String)
deriving DecidableEq

/-- An equipment failure record: the two dict keys read by
validate_schedule. -/
structure EquipmentFailure where
  processName : String
  lineId : String
deriving DecidableEq

/-- One issue dict of validate_schedule. -/
structure Issue where
  severity : String
  message : String
deriving DecidableEq

/-- ScheduleValidationOutput (models/scheduling.py). -/
structure ScheduleValidationOutput where
  is_valid : Bool
  can_proceed : Bool
  issues : List Issue
  error_count : ℕ
  warning_count : ℕ
  recommendations : List String
deriving DecidableEq

/-- The three-way compatibility test of group_by_drug_and_density
between the group leader batch_i and a candidate batch_j. -/
def matchesCrit (same_drug same_density : Bool)
    (batch_i batch_j : BatchOrderInput) : Bool :=
  let drug_match := batch_i.drug == batch_j.drug
  let density_match := batch_i.density == batch_j.density
  if same_drug && same_density && drug_match && density_match then true
  else if same_drug && !same_density && drug_match && !density_match then true
  else if !same_drug && !same_density && !drug_match then true
  else false

/-- The inner loop of group_by_drug_and_density: collect the not yet
used batches after the leader that match it, threading the used id set
(modelled as a list); returns the collected group tail and the final
used set. -/
def collectMatches (same_drug same_density : Bool) (lead : BatchOrderInput) :
    List BatchOrderInput → List String → List BatchOrderInput × List String
  | [], used => ([], used)
  | b :: rest, used =>
    if used.contains b.id then collectMatches same_drug same_density lead rest used
    else if matchesCrit same_drug same_density lead b then
      let r := collectMatches same_drug same_density lead rest (b.id :: used)
      (b :: r.1, r.2)
    else collectMatches same_drug same_density lead rest used

/-- The outer loop of group_by_drug_and_density: each not yet used
batch starts a group, absorbs later matching batches, and the group is
appended to the result (the len(group) >= 1 gate always holds). -/
def groupPass (same_drug same_density : Bool) :
    List BatchOrderInput → List String → List BatchOrderInput
  | [], _ => []
  | b :: rest, used =>
    if used.contains b.id then groupPass same_drug same_density rest used
    else
      let r := collectMatches same_drug same_density b rest (b.id :: used)
      (b :: r.1) ++ groupPass same_drug same_density rest r.2

/-- group_by_drug_and_density helper of the scheduling agent. -/
def group_by_drug_and_density (batches : List BatchOrderInput)
    (same_drug same_density : Bool) : List BatchOrderInput :=
  if batches = [] then [] else groupPass same_drug same_density batches []

/-- The Python sort key (b.drug, b.density): lexicographic order on
the drug and density strings. -/
def batchKeyLe (a b : BatchOrderInput) : Prop :=
  a.drug < b.drug ∨ (a.drug = b.drug ∧ a.density ≤ b.density)

instance : DecidableRel batchKeyLe := fun a b => by
  unfold batchKeyLe; infer_instance

/-- SchedulingAgent.group_batches: sort by (drug, density), then three
independent grouping passes, each emitted only past its minimum size. -/
def group_batches (batches : List BatchOrderInput) : List ScheduleGroupOutput :=
  let sorted_batches := batches.insertionSort batchKeyLe
  let same_drug_same_density := group_by_drug_and_density sorted_batches true true
  let same_drug_diff_density := group_by_drug_and_density sorted_batches true false
  let diff_drug_diff_density := group_by_drug_and_density sorted_batches false false
  (if SchedulingConfig.MIN_BATCH_GROUP_SIZE ≤ same_drug_same_density.length then
    [⟨"same-drug-same-density", "Same Drug + Same Density", same_drug_same_density,
      "none", SchedulingConfig.NO_CLEANING_TIME,
      (same_drug_same_density.length : ℤ) * SchedulingConfig.SAME_DRUG_SAME_DENSITY_SAVINGS,
      1, "emerald"⟩]
   else []) ++
  (if SchedulingConfig.MIN_BATCH_GROUP_SIZE ≤ same_drug_diff_density.length then
    [⟨"same-drug-diff-density", "Same Drug + Different Density", same_drug_diff_density,
      "partial", SchedulingConfig.PARTIAL_CLEANING_TIME,
      (same_drug_diff_density.length : ℤ) * SchedulingConfig.SAME_DRUG_DIFF_DENSITY_SAVINGS,
      2, "amber"⟩]
   else []) ++
  (if diff_drug_diff_density ≠ [] then
    [⟨"diff-drug-diff-density", "Different Drug + Different Density", diff_drug_diff_density,
      "full", SchedulingConfig.FULL_CLEANING_TIME,
      (diff_drug_diff_density.length : ℤ) * SchedulingConfig.DIFF_DRUG_DIFF_DENSITY_SAVINGS,
      3, "rose"⟩]
   else [])

/-- Whether the character list sub is a leading segment of s. -/
def startsWithChars : List Char → List Char → Bool
  | _, [] => true
  | [], _ :: _ => false
  | a :: as, b :: bs => a == b && startsWithChars as bs

/-- Whether the character list sub occurs contiguously in s. -/
def hasSubChars (sub : List Char) : List Char → Bool
  | [] => startsWithChars [] sub
  | c :: cs => startsWithChars (c :: cs) sub || hasSubChars sub cs

/-- Python substring containment sub in s on strings. -/
def strContainsSub (s sub : String) : Bool :=
  hasSubChars sub.toList s.toList

/-- validate_constraints of the scheduling agent. The two optional
thresholds go through Python truthiness (None and 0 are falsy). -/
def validate_constraints (constraints : ResourceConstraintInput)
    (conditions : List ProductionConditionInput) : List String :=
  (match constraints.min_operator_skill with
   | some v =>
     if v ≠ 0 ∧ v > SchedulingConfig.MIN_OPERATOR_SKILL_LEVEL then
       match conditions.find? (fun c => strContainsSub c.name "Operator") with
       | some oc => if oc.status ≠ "ready" then ["Insufficient operator skill level available"] else []
       | none => []
     else []
   | none => []) ++
  (match constraints.max_machine_wear with
   | some v =>
     if v ≠ 0 then
       match conditions.find? (fun c => strContainsSub c.name "Machine Wear") with
       | some mc => if mc.status = "warning" then ["Machine wear approaching maximum threshold"] else []
       | none => []
     else []
   | none => []) ++
  (match conditions.find? (fun c => strContainsSub c.name "Room Clearance") with
   | some rc => if rc.status ≠ "ready" then ["Room clearance not yet approved"] else []
   | none => [])

/-- Python round(x, 2): scaled round half to even, two decimals. -/
def pyRound2 (q : ℚ) : ℚ :=
  (pyRound (q * 100) : ℚ) / 100

/-- calculate_schedule_confidence of the scheduling agent. -/
def calculate_schedule_confidence (blockers warnings : List ProductionConditionInput)
    (violations : List String) : ℚ :=
  let confidence : ℚ :=
    1 - (blockers.length : ℚ) * 0.25 - (warnings.length : ℚ) * 0.10 -
      (violations.length : ℚ) * 0.15
  max 0 (min 1 (pyRound2 confidence))

/-- generate_optimization_insights of the scheduling agent. -/
def generate_optimization_insights (groups : List ScheduleGroupOutput)
    (efficiency_gain : ℤ) (blockers : List ProductionConditionInput) : List String :=
  (if SchedulingConfig.TARGET_EFFICIENCY_GAIN ≤ efficiency_gain then
    ["Optimal grouping achieved " ++ toString efficiency_gain ++ "% cleaning time reduction"]
   else if 0 < efficiency_gain then
    ["Current grouping provides " ++ toString efficiency_gain ++
      "% efficiency gain. Consider batch resequencing for further improvement."]
   else []) ++
  (match groups.find? (fun g => g.type == "same-drug-same-density") with
   | some g =>
     if 5 ≤ g.batches.length then
       ["Large same-product run (" ++ toString g.batches.length ++ " batches) maximizes throughput"]
     else []
   | none => []) ++
  (if blockers ≠ [] then
    ["Schedule may be delayed due to " ++ toString blockers.length ++ " blocking condition(s)"]
   else []) ++
  (let no_clean_groups := groups.filter (fun g => g.cleaning_required == "none")
   if no_clean_groups ≠ [] then
     [toString (no_clean_groups.map (fun g => g.batches.length)).sum ++
       " batches require no cleaning changeover"]
   else [])

/-- generate_validation_recommendations of the scheduling agent. -/
def generate_validation_recommendations (issues : List Issue)
    (equipment_failures : List EquipmentFailure) : List String :=
  (if equipment_failures ≠ [] then
    ["Continue production using backup equipment while maintenance addresses failures",
     "Monitor backup equipment capacity to prevent overload"]
   else []) ++
  (if (issues.filter (fun i => i.severity == "error")) ≠ [] ∧ equipment_failures = [] then
    ["Resolve blocking conditions before proceeding with scheduled batches"]
   else []) ++
  (if (issues.filter (fun i => i.severity == "warning")) ≠ [] then
    ["Review and address warnings to maintain optimal schedule efficiency"]
   else []) ++
  (if issues = [] then
    ["All conditions nominal - proceed with optimized schedule"]
   else [])

/-- ScheduleOptimizationOutput; the blocker and warning dicts keep the
unit, name and detail fields projected by the source. -/
structure ScheduleOptimizationOutput where
  groups : List ScheduleGroupOutput
  total_batches : ℕ
  total_savings_minutes : ℤ
  efficiency_gain : ℤ
  baseline_cleaning_time : ℤ
  optimized_cleaning_time : ℤ
  blockers : List (String × String × String)
  warnings : List (String × String × String)
  constraint_violations : List String
  confidence : ℚ
  insights : List String
  is_optimal : Bool
deriving DecidableEq

/-- SchedulingAgent.optimize_schedule. A missing constraints argument
defaults to the all-None ResourceConstraintInput. -/
def optimize_schedule (groups : List ScheduleGroupOutput)
    (conditions : List ProductionConditionInput)
    (constraints : Option ResourceConstraintInput) : ScheduleOptimizationOutput :=
  let cs := constraints.getD ⟨none, none, none⟩
  let total_batches : ℕ := (groups.map (fun g => g.batches.length)).sum
  let baseline_cleaning_time : ℤ :=
    (total_batches : ℤ) * SchedulingConfig.FULL_CLEANING_TIME
  let optimized_cleaning_time : ℤ :=
    (groups.map (fun g => (g.batches.length : ℤ) * g.cleaning_time_minutes)).sum
  let total_savings_minutes : ℤ := (groups.map (fun g => g.estimated_savings)).sum
  let efficiency_gain : ℤ :=
    if 0 < baseline_cleaning_time then
      pyRound ((1 - (optimized_cleaning_time : ℚ) / (baseline_cleaning_time : ℚ)) * 100)
    else 0
  let blockers := conditions.filter (fun c => c.status == "blocked")
  let warnings := conditions.filter (fun c => c.status == "warning")
  let constraint_violations := validate_constraints cs conditions
  let confidence := calculate_schedule_confidence blockers warnings constraint_violations
  let insights := generate_optimization_insights groups efficiency_gain blockers
  ⟨groups, total_batches, total_savings_minutes, efficiency_gain,
    baseline_cleaning_time, optimized_cleaning_time,
    blockers.map (fun b => (b.unit, b.name, b.detail)),
    warnings.map (fun w => (w.unit, w.name, w.detail)),
    constraint_violations, confidence, insights,
    blockers = [] ∧ constraint_violations = []⟩

/-- SchedulingAgent.validate_schedule. A missing equipment_failures
argument defaults to the empty list (None or [] is []). -/
def validate_schedule (groups : List ScheduleGroupOutput)
    (conditions : List ProductionConditionInput)
    (equipment_failures : Option (List EquipmentFailure)) : ScheduleValidationOutput :=
  let eqf := equipment_failures.getD []
  let failure_issues : List Issue := eqf.map (fun f =>
    ⟨"error", f.processName ++ " on " ++ f.lineId ++ " is offline - batches diverted to backup"⟩)
  let condition_issues : List Issue := conditions.flatMap (fun c =>
    if c.status = "blocked" then [⟨"error", c.name ++ " at " ++ c.unit ++ ": " ++ c.detail⟩]
    else if c.status = "warning" then [⟨"warning", c.name ++ " at " ++ c.unit ++ ": " ++ c.detail⟩]
    else [])
  let empty_group_issues : List Issue := groups.flatMap (fun g =>
    if g.batches = [] then [⟨"warning", "Empty batch group: " ++ g.label⟩] else [])
  let qa_condition := conditions.find? (fun c =>
    strContainsSub c.name "Room Clearance" || strContainsSub c.name "QA")
  let qa_issues : List Issue :=
    (groups.filter (fun g => g.cleaning_required == "full")).flatMap (fun g =>
      match qa_condition with
      | some c =>
        if c.status ≠ "ready" then [⟨"warning", "QA clearance pending for " ++ g.label ++ " group"⟩]
        else []
      | none => [])
  let issues := failure_issues ++ condition_issues ++ empty_group_issues ++ qa_issues
  let error_count := (issues.filter (fun i => i.severity == "error")).length
  let warning_count := (issues.filter (fun i => i.severity == "warning")).length
  ⟨error_count = 0, error_count = 0 ∨ 0 < eqf.length, issues, error_count, warning_count,
    generate_validation_recommendations issues eqf⟩

/-! ## Vision QC agent (agents/vision_agent.py) -/

namespace VisionConfig

def HIGH_CONFIDENCE : ℚ := 0.85

def MEDIUM_CONFIDENCE : ℚ := 0.70

def LOW_CONFIDENCE : ℚ := 0.50

end VisionConfig

/-- VisionDetectionInput without raw image data; the optional input
timestamp only feeds the wall-clock output timestamp, both omitted. -/
structure VisionDetectionInput where
  id : String
  type : String
  location : String
  confidence : ℚ
deriving DecidableEq

/-- VisionDetectionOutput without the wall-clock timestamp. -/
structure VisionDetectionOutput where
  id : String
  type : String
  severity : String
  location : String
  confidence : ℚ
  recommendation : String
  priority_score : ℤ
  alert_recipients : List String
  status : String
  requires_immediate : Bool
deriving DecidableEq

/-- DEFAULT_SEVERITY_MAP of the vision agent. -/
def DEFAULT_SEVERITY_MAP : List (String × String) :=
  [("ppe_violation", "moderate"), ("surface_damage", "moderate"),
   ("leak", "critical"), ("contamination", "critical"), ("safety_hazard", "critical")]

/-- ALERT_ROUTING_RULES of the vision agent. -/
def ALERT_ROUTING_RULES : List (String × List String) :=
  [("ppe_violation", ["supervisor", "safety_officer"]),
   ("surface_damage", ["maintenance", "qa_inspector"]),
   ("leak", ["maintenance", "supervisor", "safety_officer"]),
   ("contamination", ["qa_inspector", "supervisor", "production_manager"]),
   ("safety_hazard", ["safety_officer", "supervisor", "security"])]

/-- Python dict .get(key, default) over an association list (the
dict literals of the source have pairwise distinct keys). -/
def dictGet {α : Type} : List (String × α) → String → α → α
  | [], _, dflt => dflt
  | (k, v) :: rest, key, dflt => if key = k then v else dictGet rest key dflt

/-- generate_recommendation of the vision agent: fixed nested map from
type and severity to the recommendation text, with a generic default. -/
def generate_recommendation (detection_type severity location : String) : String :=
  if detection_type = "ppe_violation" then
    if severity = "minor" then "Remind personnel at " ++ location ++ " to verify PPE compliance"
    else if severity = "moderate" then
      "Immediately notify supervisor to address PPE violation at " ++ location
    else if severity = "critical" then
      "STOP WORK at " ++ location ++
        " - Critical PPE violation detected. Escort personnel to compliance area."
    else "Review detection at " ++ location ++ " and take appropriate action."
  else if detection_type = "surface_damage" then
    if severity = "minor" then
      "Schedule inspection of surface at " ++ location ++ " during next maintenance window"
    else if severity = "moderate" then
      "Create maintenance ticket for surface damage at " ++ location ++
        ". Assess structural integrity."
    else if severity = "critical" then
      "URGENT: Cordon off " ++ location ++ ". Immediate structural assessment required."
    else "Review detection at " ++ location ++ " and take appropriate action."
  else if detection_type = "leak" then
    if severity = "minor" then
      "Monitor potential leak at " ++ location ++ ". Schedule plumbing inspection."
    else if severity = "moderate" then
      "Deploy containment at " ++ location ++ ". Notify maintenance for leak repair."
    else if severity = "critical" then
      "EMERGENCY: Evacuate " ++ location ++
        ". Shut off utilities. Deploy emergency response team."
    else "Review detection at " ++ location ++ " and take appropriate action."
  else if detection_type = "contamination" then
    if severity = "minor" then
      "Initiate cleaning protocol at " ++ location ++ ". Document for batch records."
    else if severity = "moderate" then
      "Quarantine area at " ++ location ++ ". QA inspection required before resuming operations."
    else if severity = "critical" then
      "STOP PRODUCTION: Contamination at " ++ location ++
        ". Initiate full investigation and batch quarantine."
    else "Review detection at " ++ location ++ " and take appropriate action."
  else if detection_type = "safety_hazard" then
    if severity = "minor" then
      "Address safety concern at " ++ location ++ ". Update safety checklist."
    else if severity = "moderate" then
      "Clear personnel from " ++ location ++ ". Safety officer review required."
    else if severity = "critical" then
      "EVACUATE " ++ location ++ " immediately. Emergency response protocols activated."
    else "Review detection at " ++ location ++ " and take appropriate action."
  else "Review detection at " ++ location ++ " and take appropriate action."

/-- calculate_priority_score of the vision agent. -/
def calculate_priority_score (detection_type severity : String) (confidence : ℚ) : ℤ :=
  let severity_weights : List (String × ℚ) := [("minor", 20), ("moderate", 50), ("critical", 90)]
  let type_weights : List (String × ℚ) :=
    [("contamination", 10), ("leak", 10), ("safety_hazard", 8),
     ("ppe_violation", 5), ("surface_damage", 3)]
  let base_score := dictGet severity_weights severity 20
  let type_bonus := dictGet type_weights detection_type 0
  let confidence_multiplier := 0.5 + confidence * 0.5
  min 100 (pyRound ((base_score + type_bonus) * confidence_multiplier))

/-- VisionAgent.analyze_detection. -/
def analyze_detection (input_data : VisionDetectionInput) : VisionDetectionOutput :=
  let detection_type := input_data.type
  let base_severity := dictGet DEFAULT_SEVERITY_MAP detection_type "minor"
  let severity :=
    if input_data.confidence < VisionConfig.LOW_CONFIDENCE then "minor"
    else if input_data.confidence > VisionConfig.HIGH_CONFIDENCE ∧ base_severity ≠ "critical" then
      (if base_severity = "minor" then "moderate" else "critical")
    else base_severity
  let recommendation := generate_recommendation detection_type severity input_data.location
  let priority_score := calculate_priority_score detection_type severity input_data.confidence
  let alert_recipients := dictGet ALERT_ROUTING_RULES detection_type ["supervisor"]
  ⟨input_data.id, detection_type, severity, input_data.location, input_data.confidence,
    recommendation, priority_score, alert_recipients, "detected", severity = "critical"⟩

/-! ## Claim theorems -/

/-- C10: passing an explicit override threshold equal to 0 to
detect_anomalies (for vibration, temperature or motor load) produces
the same result as omitting the override: the truthiness fallback
discards the zero and the defaults 5.0, 65 and 90 are used instead. -/
theorem c10_zero_threshold_override :
    ∀ (samples : List SensorData) (t1 t2 t3 : Option ℚ),
      detect_anomalies samples (some 0) t2 t3 = detect_anomalies samples none t2 t3 ∧
      detect_anomalies samples t1 (some 0) t3 = detect_anomalies samples t1 none t3 ∧
      detect_anomalies samples t1 t2 (some 0) = detect_anomalies samples t1 t2 none ∧
      resolveThreshold (some 0) MaintenanceConfig.VIBRATION_THRESHOLD = 5 ∧
      resolveThreshold (some 0) MaintenanceConfig.TEMPERATURE_THRESHOLD = 65 ∧
      resolveThreshold (some 0) MaintenanceConfig.MOTOR_LOAD_THRESHOLD = 90 := by
  intro samples t1 t2 t3
  refine ⟨?_, ?_, ?_, ?_, ?_, ?_⟩ <;>
    simp [detect_anomalies, resolveThreshold, MaintenanceConfig.VIBRATION_THRESHOLD,
      MaintenanceConfig.TEMPERATURE_THRESHOLD, MaintenanceConfig.MOTOR_LOAD_THRESHOLD]

/-- C3: validate_schedule lets production proceed exactly when the
error count is zero or the equipment failure list is non-empty; with
one equipment failure and two blocked conditions the error count is 3,
the schedule is invalid, and production may still proceed. -/
theorem c3_validate_schedule_can_proceed :
    (∀ (groups : List ScheduleGroupOutput) (conditions : List ProductionConditionInput)
        (equipment_failures : Option (List EquipmentFailure)),
      ((validate_schedule groups conditions equipment_failures).can_proceed = true ↔
        ((validate_schedule groups conditions equipment_failures).error_count = 0 ∨
          equipment_failures.getD [] ≠ []))) ∧
    ((validate_schedule []
        [⟨"c1", "U1", "N1", "blocked", "D1"⟩, ⟨"c2", "U2", "N2", "blocked", "D2"⟩]
        (some [⟨"Granulator", "Line-2"⟩])).error_count = 3 ∧
      (validate_schedule []
        [⟨"c1", "U1", "N1", "blocked", "D1"⟩, ⟨"c2", "U2", "N2", "blocked", "D2"⟩]
        (some [⟨"Granulator", "Line-2"⟩])).is_valid = false ∧
      (validate_schedule []
        [⟨"c1", "U1", "N1", "blocked", "D1"⟩, ⟨"c2", "U2", "N2", "blocked", "D2"⟩]
        (some [⟨"Granulator", "Line-2"⟩])).can_proceed = true) := by
  constructor
  · intro groups conditions equipment_failures
    simp [validate_schedule, List.length_pos]
  · decide

/-- C8: optimize_schedule prices the baseline at 45 minutes of cleaning
per batch, the optimized schedule at each group size times its group
cleaning time, and the efficiency gain at round((1 - optimized /
baseline) * 100), with gain 0 instead of a division error when the
baseline (equivalently the batch count) is zero. -/
theorem c8_optimize_schedule_efficiency :
    ∀ (groups : List ScheduleGroupOutput) (conditions : List ProductionConditionInput)
      (constraints : Option ResourceConstraintInput),
      (optimize_schedule groups conditions constraints).baseline_cleaning_time =
        ((((groups.map (fun g => g.batches.length)).sum : ℕ) : ℤ)) * 45 ∧
      (optimize_schedule groups conditions constraints).optimized_cleaning_time =
        (groups.map (fun g => (g.batches.length : ℤ) * g.cleaning_time_minutes)).sum ∧
      ((optimize_schedule groups conditions constraints).baseline_cleaning_time = 0 ↔
        (groups.map (fun g => g.batches.length)).sum = 0) ∧
      (optimize_schedule groups conditions constraints).efficiency_gain =
        (if (optimize_schedule groups conditions constraints).baseline_cleaning_time = 0 then 0
         else pyRound ((1 -
            ((optimize_schedule groups conditions constraints).optimized_cleaning_time : ℚ) /
              ((optimize_schedule groups conditions constraints).baseline_cleaning_time : ℚ)) * 100)) := by
  intro groups conditions constraints
  simp only [optimize_schedule, SchedulingConfig.FULL_CLEANING_TIME]
  refine ⟨trivial, trivial, by omega, ?_⟩
  rcases Nat.eq_zero_or_pos (groups.map (fun g => g.batches.length)).sum with h | h
  · simp [h]
  · have h45 : (0 : ℤ) < (((groups.map (fun g => g.batches.length)).sum : ℕ) : ℤ) * 45 := by
      positivity
    rw [if_pos h45, if_neg (by omega)]

/-- Membership in detect_anomalies comes from one of the three
per-sample checks at the resolved thresholds. -/
lemma mem_detect_anomalies {a : AnomalyOut} {samples : List SensorData}
    {vt tt mt : Option ℚ} (h : a ∈ detect_anomalies samples vt tt mt) :
    ∃ d ∈ samples,
      vibrationCheck (resolveThreshold vt MaintenanceConfig.VIBRATION_THRESHOLD) d = some a ∨
      temperatureCheck (resolveThreshold tt MaintenanceConfig.TEMPERATURE_THRESHOLD) d = some a ∨
      motorLoadCheck (resolveThreshold mt MaintenanceConfig.MOTOR_LOAD_THRESHOLD) d = some a := by
  simp only [detect_anomalies, List.mem_flatMap, List.mem_append, Option.mem_toList,
    Option.mem_def] at h
  obtain ⟨d, hd, hcase⟩ := h
  exact ⟨d, hd, by tauto⟩

/-- C4 counterexample: at temperature 80 against the default threshold
65 the offset is exactly 15, which the claim classifies as high, but
the code emits severity medium (its comparison is strict). -/
theorem c4_counterexample :
    detect_anomalies [⟨0, 0, 80, 0⟩] none none none =
      [⟨"Temperature Sensor", "medium", 80, 65, 0⟩] ∧
    (15 : ℚ) ≤ 80 - 65 ∧ ("medium" : String) ≠ "high" := by
  refine ⟨?_, by norm_num, by decide⟩
  norm_num [detect_anomalies, vibrationCheck, temperatureCheck, motorLoadCheck,
    resolveThreshold, MaintenanceConfig.VIBRATION_THRESHOLD,
    MaintenanceConfig.TEMPERATURE_THRESHOLD, MaintenanceConfig.MOTOR_LOAD_THRESHOLD]

/-- C4 amended: the tiers use strict comparisons. A temperature anomaly
is high iff the reading exceeds threshold + 15, medium iff it exceeds
threshold + 5 (but not threshold + 15), low otherwise; a vibration
anomaly is high iff the reading exceeds 1.5 x threshold, medium iff it
exceeds 1.2 x threshold (but not 1.5 x), low otherwise. -/
theorem c4_severity_tiers_amended :
    ∀ (vt tt mt : Option ℚ) (samples : List SensorData) (a : AnomalyOut),
      a ∈ detect_anomalies samples vt tt mt →
      (a.source = "Temperature Sensor" →
        ((a.severity = "high" ↔ a.threshold + 15 < a.reading) ∧
         (a.severity = "medium" ↔ a.threshold + 5 < a.reading ∧ a.reading ≤ a.threshold + 15) ∧
         (a.severity = "low" ↔ a.reading ≤ a.threshold + 5))) ∧
      (a.source = "Vibration Sensor" →
        ((a.severity = "high" ↔ a.threshold * 1.5 < a.reading) ∧
         (a.severity = "medium" ↔ a.threshold * 1.2 < a.reading ∧ a.reading ≤ a.threshold * 1.5) ∧
         (a.severity = "low" ↔ a.reading ≤ a.threshold * 1.2))) := by
  intro vt tt mt samples a ha
  obtain ⟨d, _, hcase⟩ := mem_detect_anomalies ha
  rcases hcase with hc | hc | hc
  · -- vibration anomaly: the temperature implication is vacuous
    rw [vibrationCheck] at hc
    split_ifs at hc with h1 h2 h3
    · rw [Option.some_inj] at hc; subst hc
      exact ⟨fun hs => absurd hs (by simp), fun _ =>
        ⟨iff_of_true rfl h2,
         iff_of_false (by simp) (fun hx => by
           have := hx.2
           linarith),
         iff_of_false (by simp) (fun hx => by linarith)⟩⟩
    · rw [Option.some_inj] at hc; subst hc
      exact ⟨fun hs => absurd hs (by simp), fun _ =>
        ⟨iff_of_false (by simp) h2,
         iff_of_true rfl ⟨h3, le_of_not_lt h2⟩,
         iff_of_false (by simp) (fun hx => by linarith)⟩⟩
    · rw [Option.some_inj] at hc; subst hc
      exact ⟨fun hs => absurd hs (by simp), fun _ =>
        ⟨iff_of_false (by simp) h2,
         iff_of_false (by simp) (fun hx => h3 hx.1),
         iff_of_true rfl (le_of_not_lt h3)⟩⟩
  · -- temperature anomaly: the vibration implication is vacuous
    rw [temperatureCheck] at hc
    split_ifs at hc with h1 h2 h3
    · rw [Option.some_inj] at hc; subst hc
      exact ⟨fun _ =>
        ⟨iff_of_true rfl h2,
         iff_of_false (by simp) (fun hx => by
           have := hx.2
           linarith),
         iff_of_false (by simp) (fun hx => by linarith)⟩,
        fun hs => absurd hs (by simp)⟩
    · rw [Option.some_inj] at hc; subst hc
      exact ⟨fun _ =>
        ⟨iff_of_false (by simp) h2,
         iff_of_true rfl ⟨h3, le_of_not_lt h2⟩,
         iff_of_false (by simp) (fun hx => by linarith)⟩,
        fun hs => absurd hs (by simp)⟩
    · rw [Option.some_inj] at hc; subst hc
      exact ⟨fun _ =>
        ⟨iff_of_false (by simp) h2,
         iff_of_false (by simp) (fun hx => h3 hx.1),
         iff_of_true rfl (le_of_not_lt h3)⟩,
        fun hs => absurd hs (by simp)⟩
  · -- motor load anomaly: both implications are vacuous
    rw [motorLoadCheck] at hc
    split_ifs at hc with h1 h2
    · rw [Option.some_inj] at hc; subst hc
      exact ⟨fun hs => absurd hs (by simp), fun hs => absurd hs (by simp)⟩
    · rw [Option.some_inj] at hc; subst hc
      exact ⟨fun hs => absurd hs (by simp), fun hs => absurd hs (by simp)⟩

/-- C4 witness: a temperature reading of 85 against the default
threshold 65 (offset 20 > 15) is classified high. -/
theorem c4_witness :
    (("high" : String) = "high" ↔ (65 : ℚ) + 15 < 85) := by
  have h := (c4_severity_tiers_amended none none none [⟨0, 0, 85, 0⟩]
      ⟨"Temperature Sensor", "high", 85, 65, 0⟩
      (by norm_num [detect_anomalies, vibrationCheck, temperatureCheck, motorLoadCheck,
        resolveThreshold, MaintenanceConfig.VIBRATION_THRESHOLD,
        MaintenanceConfig.TEMPERATURE_THRESHOLD, MaintenanceConfig.MOTOR_LOAD_THRESHOLD])).1
      rfl
  exact h.1

/-- C9: for each of the three checks of detect_anomalies, at any fixed
threshold, a higher reading never yields a strictly lower severity
(none < low < medium < high). -/
theorem c9_severity_monotone :
    ∀ (th : ℚ) (d1 d2 : SensorData),
      (d1.vibration ≤ d2.vibration →
        sevRank (vibrationCheck th d1) ≤ sevRank (vibrationCheck th d2)) ∧
      (d1.temperature ≤ d2.temperature →
        sevRank (temperatureCheck th d1) ≤ sevRank (temperatureCheck th d2)) ∧
      (d1.motor_load ≤ d2.motor_load →
        sevRank (motorLoadCheck th d1) ≤ sevRank (motorLoadCheck th d2)) := by
  intro th d1 d2
  refine ⟨?_, ?_, ?_⟩ <;> intro hle <;>
    simp only [vibrationCheck, temperatureCheck, motorLoadCheck, sevRank] <;>
    split_ifs <;> simp_all <;> linarith

/-- C9 witness: monotonicity at threshold 5 between readings 6 and 9. -/
theorem c9_witness :
    sevRank (vibrationCheck 5 ⟨6, 0, 0, 0⟩) ≤ sevRank (vibrationCheck 5 ⟨9, 0, 0, 0⟩) :=
  (c9_severity_monotone 5 ⟨6, 0, 0, 0⟩ ⟨9, 0, 0, 0⟩).1 (by norm_num)

/-- C7: analyze_detection takes the base severity from the fixed type
map; confidence below 0.50 forces the final severity to minor, and
confidence above 0.85 escalates minor to moderate and moderate to
critical while critical stays critical; for a leak at confidence 0.9
the severity is critical and the priority score is 95. -/
theorem c7_analyze_detection_severity :
    (∀ (inp : VisionDetectionInput),
      (inp.confidence < VisionConfig.LOW_CONFIDENCE →
        (analyze_detection inp).severity = "minor") ∧
      (VisionConfig.HIGH_CONFIDENCE < inp.confidence →
        ((dictGet DEFAULT_SEVERITY_MAP inp.type "minor" = "minor" →
            (analyze_detection inp).severity = "moderate") ∧
         (dictGet DEFAULT_SEVERITY_MAP inp.type "minor" = "moderate" →
            (analyze_detection inp).severity = "critical") ∧
         (dictGet DEFAULT_SEVERITY_MAP inp.type "minor" = "critical" →
            (analyze_detection inp).severity = "critical")))) ∧
    ((analyze_detection ⟨"d1", "leak", "Bay 4", 0.9⟩).severity = "critical" ∧
      (analyze_detection ⟨"d1", "leak", "Bay 4", 0.9⟩).priority_score = 95) := by
  constructor
  · intro inp
    constructor
    · intro h
      simp [analyze_detection, h]
    · intro h
      have hnot : ¬ inp.confidence < VisionConfig.LOW_CONFIDENCE := by
        simp only [VisionConfig.LOW_CONFIDENCE, VisionConfig.HIGH_CONFIDENCE] at h ⊢
        linarith
      refine ⟨fun hb => ?_, fun hb => ?_, fun hb => ?_⟩ <;>
        simp [analyze_detection, hnot, h, hb]
  · constructor
    · simp [analyze_detection, dictGet, DEFAULT_SEVERITY_MAP,
        VisionConfig.LOW_CONFIDENCE, VisionConfig.HIGH_CONFIDENCE]
      norm_num
    · simp [analyze_detection, dictGet, DEFAULT_SEVERITY_MAP, ALERT_ROUTING_RULES,
        calculate_priority_score, VisionConfig.LOW_CONFIDENCE, VisionConfig.HIGH_CONFIDENCE]
      norm_num [pyRound]
      simp
      norm_num

/-- C7 witness: a ppe_violation at confidence 0.3 is forced to minor. -/
theorem c7_witness :
    (analyze_detection ⟨"d2", "ppe_violation", "Bay 1", 0.3⟩).severity = "minor" :=
  ((c7_analyze_detection_severity.1 ⟨"d2", "ppe_violation", "Bay 1", 0.3⟩).1
    (by norm_num [VisionConfig.LOW_CONFIDENCE]))

/-- Enumerated product sum over a constant list. -/
lemma enumMulSum_replicate (c : ℚ) :
    ∀ (n k : ℕ), enumMulSum k (List.replicate n c) =
      c * ∑ j ∈ Finset.range n, ((k : ℚ) + (j : ℚ)) := by
  intro n
  induction n with
  | zero => intro k; simp [enumMulSum]
  | succ m ih =>
    intro k
    rw [List.replicate_succ]
    simp only [enumMulSum, ih (k + 1), Finset.sum_range_succ']
    push_cast
    rw [Finset.sum_congr rfl (fun x _ => by ring :
      ∀ x ∈ Finset.range m, (k : ℚ) + 1 + (x : ℚ) = (k : ℚ) + ((x : ℚ) + 1))]
    ring

/-- A constant series has zero OLS slope and zero percent change. -/
lemma calculate_trend_replicate (n : ℕ) (c : ℚ) :
    calculate_trend (List.replicate n c) = (0, 0) := by
  have hnum : (n : ℚ) * enumMulSum 0 (List.replicate n c) -
      (∑ i ∈ Finset.range n, (i : ℚ)) * (List.replicate n c).sum = 0 := by
    rw [enumMulSum_replicate, List.sum_replicate, nsmul_eq_mul]
    push_cast
    ring
  simp only [calculate_trend, List.length_replicate]
  split_ifs with h1 h2 h3
  · rfl
  · rfl
  · rw [hnum]
    simp
  · rw [hnum]
    simp

/-- A constant window never triggers the drift branch. -/
lemma driftFor_replicate (n : ℕ) (c : ℚ) (p : String) (de ac : String → String) :
    driftFor (List.replicate n c) p de ac = none := by
  norm_num [driftFor, calculate_trend_replicate]

/-- A zero regression denominator short-circuits calculate_trend. -/
lemma calculate_trend_denominator_zero (values : List ℚ)
    (h : trendDenominator values = 0) : calculate_trend values = (0, 0) := by
  by_cases h1 : values.length < 2
  · simp [calculate_trend, h1]
  · simp [calculate_trend, h1, h]

/-- C2 counterexample: a window whose weight series is [-1, 1] has mean
zero, yet detect_drift emits a weight detection (of magnitude 0): a
zero mean guards only the percent-change division, not the emission. -/
theorem c2_counterexample :
    ((recentWindow [⟨-1, 1, 1, 1, 1, 1, 1, 1, 0⟩, ⟨1, 1, 1, 1, 1, 1, 1, 1, 1⟩] 2).map
        (fun s => s.weight)).sum = 0 ∧
    (detect_drift [⟨-1, 1, 1, 1, 1, 1, 1, 1, 0⟩, ⟨1, 1, 1, 1, 1, 1, 1, 1, 1⟩] 2).map
        (fun d => (d.parameter, d.magnitude, d.severity)) = [("weight", 0, "low")] ∧
    (detect_drift [⟨-1, 1, 1, 1, 1, 1, 1, 1, 0⟩, ⟨1, 1, 1, 1, 1, 1, 1, 1, 1⟩] 2) ≠ [] := by
  refine ⟨by norm_num [recentWindow], ?_, ?_⟩ <;>
    norm_num [detect_drift, recentWindow, driftParams, driftFor, calculate_trend,
      trendDenominator, enumMulSum, Finset.sum_range_succ, Finset.sum_range_zero,
      YieldConfig.DRIFT_MAGNITUDE_HIGH, YieldConfig.DRIFT_MAGNITUDE_MEDIUM]

/-- C2 amended: detect_drift is empty for fewer than window_size
samples and for any constant series; a zero regression denominator
yields no detection for that parameter; and a zero window mean no
longer divides (the percent change is treated as 0), so any detection
emitted for a zero-mean parameter has magnitude 0 (such a detection is
still emitted when the slope exceeds 0.01 in absolute value). -/
theorem c2_detect_drift_amended :
    (∀ (signals : List TabletPressSignalsInput) (w : ℕ),
      signals.length < w → detect_drift signals w = []) ∧
    (∀ (s : TabletPressSignalsInput) (m w : ℕ),
      detect_drift (List.replicate m s) w = []) ∧
    (∀ (values : List ℚ) (p : String) (de ac : String → String),
      trendDenominator values = 0 → driftFor values p de ac = none) ∧
    (∀ (values : List ℚ) (p : String) (de ac : String → String)
        (det : DriftDetectionOutput),
      values.sum = 0 → driftFor values p de ac = some det → det.magnitude = 0) := by
  refine ⟨?_, ?_, ?_, ?_⟩
  · intro signals w h
    simp [detect_drift, h]
  · intro s m w
    by_cases h : m < w
    · simp [detect_drift, h]
    · have h2 : ¬ (List.replicate m s).length < w := by simpa using h
      obtain ⟨k, hk⟩ : ∃ k, recentWindow (List.replicate m s) w = List.replicate k s := by
        unfold recentWindow
        by_cases hw : w = 0
        · exact ⟨m, by simp [hw]⟩
        · refine ⟨m - ((List.replicate m s).length - w), ?_⟩
          simp [hw, List.drop_replicate]
      simp only [detect_drift, if_neg h2, hk, List.map_replicate]
      simp [driftParams, driftFor_replicate]
  · intro values p de ac h
    norm_num [driftFor, calculate_trend_denominator_zero values h]
  · intro values p de ac det hsum hdet
    have hpc : (calculate_trend values).2 = 0 := by
      by_cases h1 : values.length < 2
      · simp [calculate_trend, h1]
      · by_cases h2 : trendDenominator values = 0
        · simp [calculate_trend, h1, h2]
        · simp [calculate_trend, h1, h2, hsum]
    simp only [driftFor] at hdet
    split_ifs at hdet with habs <;>
      (rw [Option.some_inj] at hdet; subst hdet; simp [hpc])

/-- C2 witness: two samples against a window of three, and a window of
one sample (whose regression denominator is zero). -/
theorem c2_witness :
    detect_drift [⟨1, 1, 1, 1, 1, 1, 1, 1, 0⟩, ⟨2, 1, 1, 1, 1, 1, 1, 1, 1⟩] 3 = [] ∧
    driftFor [5] "weight" (fun d => d) (fun d => d) = none := by
  constructor
  · exact c2_detect_drift_amended.1 _ 3 (by norm_num)
  · exact c2_detect_drift_amended.2.2.1 [5] "weight" _ _
      (by norm_num [trendDenominator, Finset.sum_range_succ, Finset.sum_range_zero])

instance : IsTotal ScheduledBatchInput (fun a b => a.start_time ≤ b.start_time) :=
  ⟨fun a b => le_total a.start_time b.start_time⟩

instance : IsTrans ScheduledBatchInput (fun a b => a.start_time ≤ b.start_time) :=
  ⟨fun _ _ _ h1 h2 => le_trans h1 h2⟩

/-- The window produced by the gap scan has the requested length,
starts at the end of one of the scanned batches, and misses every
scanned batch, provided the batches are chained (each ends no later
than any later one starts) and non-degenerate. -/
lemma scanGaps_spec (d : ℚ) :
    ∀ (rest : List ScheduledBatchInput) (a : ScheduledBatchInput),
      0 < d →
      (a :: rest).Pairwise (fun x y => x.end_time ≤ y.start_time) →
      (∀ b ∈ a :: rest, b.start_time < b.end_time) →
      (scanGaps d a rest).stop = (scanGaps d a rest).start + d ∧
      (∃ x ∈ a :: rest, (scanGaps d a rest).start = x.end_time) ∧
      (∀ b ∈ a :: rest,
        (scanGaps d a rest).stop ≤ b.start_time ∨
          b.end_time ≤ (scanGaps d a rest).start) := by
  intro rest
  induction rest with
  | nil =>
    intro a hd hp hv
    refine ⟨rfl, ⟨a, by simp, rfl⟩, ?_⟩
    intro b hb
    simp only [List.mem_singleton] at hb
    subst hb
    right
    exact le_refl _
  | cons b rest ih =>
    intro a hd hp hv
    by_cases hgap : b.start_time - a.end_time ≥ d
    · have hsc : scanGaps d a (b :: rest) = ⟨a.end_time, a.end_time + d⟩ := by
        simp only [scanGaps, if_pos hgap]
      rw [hsc]
      refine ⟨rfl, ⟨a, by simp, rfl⟩, ?_⟩
      intro c hc
      rcases List.mem_cons.mp hc with rfl | hc2
      · right; exact le_refl _
      · left
        show a.end_time + d ≤ c.start_time
        rcases List.mem_cons.mp hc2 with rfl | hc3
        · linarith
        · have hbc : b.end_time ≤ c.start_time :=
            (List.pairwise_cons.mp (List.pairwise_cons.mp hp).2).1 c hc3
          have hbv : b.start_time < b.end_time := hv b (by simp)
          linarith
    · have hsc : scanGaps d a (b :: rest) = scanGaps d b rest := by
        simp only [scanGaps, if_neg hgap]
      rw [hsc]
      have hp2 : (b :: rest).Pairwise (fun x y => x.end_time ≤ y.start_time) :=
        (List.pairwise_cons.mp hp).2
      have hv2 : ∀ c ∈ b :: rest, c.start_time < c.end_time :=
        fun c hc => hv c (List.mem_cons_of_mem a hc)
      obtain ⟨hlen, ⟨x, hx, hxs⟩, hov⟩ := ih b hd hp2 hv2
      refine ⟨hlen, ⟨x, List.mem_cons_of_mem a hx, hxs⟩, ?_⟩
      intro c hc
      rcases List.mem_cons.mp hc with rfl | hc2
      · right
        have hax : c.end_time ≤ x.start_time := (List.pairwise_cons.mp hp).1 x hx
        have hxv : x.start_time < x.end_time := hv x (List.mem_cons_of_mem c hx)
        rw [hxs]
        linarith
      · exact hov c hc2

/-- C1 counterexample: with overlapping batches [1,10), [2,3), [12,20),
duration 2 and now = 0, the code returns the window [3,5), which
overlaps the future batch [1,10): the claimed no-overlap guarantee
fails for schedules whose batches overlap each other. -/
theorem c1_counterexample :
    0 < (2 : ℚ) ∧
    find_idle_window [⟨1, 10, none⟩, ⟨2, 3, none⟩, ⟨12, 20, none⟩] 2 0 = ⟨3, 5⟩ ∧
    (0 : ℚ) < 10 ∧
    ¬((find_idle_window [⟨1, 10, none⟩, ⟨2, 3, none⟩, ⟨12, 20, none⟩] 2 0).stop ≤ 1 ∨
      (10 : ℚ) ≤ (find_idle_window [⟨1, 10, none⟩, ⟨2, 3, none⟩, ⟨12, 20, none⟩] 2 0).start) := by
  have h : find_idle_window [⟨1, 10, none⟩, ⟨2, 3, none⟩, ⟨12, 20, none⟩] 2 0 = ⟨3, 5⟩ := by
    norm_num [find_idle_window, future_schedule, scanGaps, List.insertionSort,
      List.orderedInsert, List.filter]
  refine ⟨by norm_num, h, by norm_num, ?_⟩
  rw [h]
  norm_num

/-- C1 amended: when the future batches of the schedule are pairwise
non-overlapping (and each future batch ends after it starts),
find_idle_window returns a window of exactly the requested positive
duration that starts at or after now and overlaps no future batch. -/
theorem c1_find_idle_window_amended (schedule : List ScheduledBatchInput) (d now : ℚ)
    (hd : 0 < d)
    (hvalid : ∀ b ∈ schedule, now < b.end_time → b.start_time < b.end_time)
    (hdisj : schedule.Pairwise
      (fun x y => now < x.end_time → now < y.end_time →
        (x.end_time ≤ y.start_time ∨ y.end_time ≤ x.start_time))) :
    (find_idle_window schedule d now).stop - (find_idle_window schedule d now).start = d ∧
    now ≤ (find_idle_window schedule d now).start ∧
    (∀ b ∈ schedule, now < b.end_time →
      ((find_idle_window schedule d now).stop ≤ b.start_time ∨
        b.end_time ≤ (find_idle_window schedule d now).start)) := by
  have hmem : ∀ b, b ∈ future_schedule schedule now ↔ b ∈ schedule ∧ now < b.end_time := by
    intro b
    rw [future_schedule, (List.perm_insertionSort _ _).mem_iff, List.mem_filter]
    simp
  have hsorted : (future_schedule schedule now).Pairwise
      (fun x y => x.start_time ≤ y.start_time) :=
    List.sorted_insertionSort _ _
  have hpairdisj : (future_schedule schedule now).Pairwise
      (fun x y => x.end_time ≤ y.start_time ∨ y.end_time ≤ x.start_time) := by
    have hfil : (schedule.filter (fun b => now < b.end_time)).Pairwise
        (fun x y => now < x.end_time → now < y.end_time →
          (x.end_time ≤ y.start_time ∨ y.end_time ≤ x.start_time)) :=
      hdisj.filter _
    have hfil2 : (schedule.filter (fun b => now < b.end_time)).Pairwise
        (fun x y => x.end_time ≤ y.start_time ∨ y.end_time ≤ x.start_time) := by
      refine List.Pairwise.imp_of_mem ?_ hfil
      intro x y hx hy hxy
      have hxe : now < x.end_time := by simpa using (List.mem_filter.mp hx).2
      have hye : now < y.end_time := by simpa using (List.mem_filter.mp hy).2
      exact hxy hxe hye
    refine ((List.perm_insertionSort _ _).pairwise_iff ?_).mpr hfil2
    intro x y hxy
    exact hxy.symm
  have hchain : (future_schedule schedule now).Pairwise
      (fun x y => x.end_time ≤ y.start_time) := by
    refine List.Pairwise.imp_of_mem ?_ (hsorted.and hpairdisj)
    intro x y hx hy hxy
    rcases hxy.2 with h | h
    · exact h
    · exfalso
      have hym := (hmem y).mp hy
      have hyv : y.start_time < y.end_time := hvalid y hym.1 hym.2
      have := hxy.1
      linarith
  cases hfs : future_schedule schedule now with
  | nil =>
    have hw : find_idle_window schedule d now = ⟨now, now + d⟩ := by
      simp only [find_idle_window, hfs]
    rw [hw]
    refine ⟨by ring, le_refl _, ?_⟩
    intro b hb hbe
    have hbf : b ∈ future_schedule schedule now := (hmem b).mpr ⟨hb, hbe⟩
    rw [hfs] at hbf
    simp at hbf
  | cons first rest =>
    by_cases hg : first.start_time - now ≥ d
    · have hw : find_idle_window schedule d now = ⟨now, now + d⟩ := by
        simp only [find_idle_window, hfs, if_pos hg]
      rw [hw]
      refine ⟨by ring, le_refl _, ?_⟩
      intro b hb hbe
      left
      have hbmem : b ∈ first :: rest := by
        have := (hmem b).mpr ⟨hb, hbe⟩
        rwa [hfs] at this
      have hfirst : first.start_time ≤ b.start_time := by
        rcases List.mem_cons.mp hbmem with rfl | hb2
        · exact le_refl _
        · have hs := hfs ▸ hsorted
          exact (List.pairwise_cons.mp hs).1 b hb2
      show now + d ≤ b.start_time
      linarith
    · have hw : find_idle_window schedule d now = scanGaps d first rest := by
        simp only [find_idle_window, hfs, if_neg hg]
      have hchain2 : (first :: rest).Pairwise (fun x y => x.end_time ≤ y.start_time) :=
        hfs ▸ hchain
      have hv2 : ∀ b ∈ first :: rest, b.start_time < b.end_time := by
        intro b hb
        have hbf : b ∈ future_schedule schedule now := by rw [hfs]; exact hb
        have hbm := (hmem b).mp hbf
        exact hvalid b hbm.1 hbm.2
      obtain ⟨hlen, ⟨x, hx, hxs⟩, hov⟩ := scanGaps_spec d rest first hd hchain2 hv2
      have hxmem := (hmem x).mp (by rw [hfs]; exact hx)
      rw [hw]
      refine ⟨by rw [hlen]; ring, ?_, ?_⟩
      · rw [hxs]
        exact le_of_lt hxmem.2
      · intro b hb hbe
        have hbmem : b ∈ first :: rest := by
          have := (hmem b).mpr ⟨hb, hbe⟩
          rwa [hfs] at this
        exact hov b hbmem

/-- C1 witness: a disjoint two-batch schedule at duration 1, now = 0. -/
theorem c1_witness :
    (find_idle_window [⟨1, 3, none⟩, ⟨5, 7, none⟩] 1 0).stop -
      (find_idle_window [⟨1, 3, none⟩, ⟨5, 7, none⟩] 1 0).start = 1 ∧
    (0 : ℚ) ≤ (find_idle_window [⟨1, 3, none⟩, ⟨5, 7, none⟩] 1 0).start := by
  have h := c1_find_idle_window_amended [⟨1, 3, none⟩, ⟨5, 7, none⟩] 1 0 (by norm_num)
    (by intro b hb; fin_cases hb <;> norm_num)
    (by
      refine List.pairwise_cons.mpr ⟨?_, by simp⟩
      intro b hb
      fin_cases hb
      intro _ _
      left
      norm_num)
  exact ⟨h.1, h.2.1⟩

/-- Pairwise distinct ids make the id projection injective on the list. -/
lemma pairwise_id_inj {l : List BatchOrderInput}
    (h : l.Pairwise (fun a b => a.id ≠ b.id)) :
    ∀ x ∈ l, ∀ y ∈ l, x.id = y.id → x = y := by
  induction l with
  | nil => simp
  | cons a t ih =>
    intro x hx y hy hxy
    rcases List.mem_cons.mp hx with rfl | hx2 <;> rcases List.mem_cons.mp hy with rfl | hy2
    · rfl
    · exact absurd hxy ((List.pairwise_cons.mp h).1 y hy2)
    · exact absurd hxy.symm ((List.pairwise_cons.mp h).1 x hx2)
    · exact ih (List.pairwise_cons.mp h).2 x hx2 y hy2 hxy

/-- The inner loop gathers exactly the unused later batches matching
the leader (with pairwise distinct ids, marking an id as used inside
the loop never hides a later batch). -/
lemma collectMatches_fst (sd sden : Bool) (lead : BatchOrderInput) :
    ∀ (l : List BatchOrderInput) (used : List String),
      l.Pairwise (fun a b => a.id ≠ b.id) →
      (collectMatches sd sden lead l used).1 =
        l.filter (fun b => !used.contains b.id && matchesCrit sd sden lead b) := by
  intro l
  induction l with
  | nil => intro used h; simp [collectMatches]
  | cons b rest ih =>
    intro used h
    have htail := (List.pairwise_cons.mp h).2
    have hhead := (List.pairwise_cons.mp h).1
    by_cases hb : b.id ∈ used
    · simp [collectMatches, hb, ih used htail]
    · have hb2 : ¬ used.contains b.id = true := fun hc => hb (List.elem_iff.mp hc)
      by_cases hm : matchesCrit sd sden lead b = true
      · simp only [collectMatches, if_neg hb2, if_pos hm, List.filter_cons]
        rw [ih (b.id :: used) htail]
        have hpred : (!used.contains b.id && matchesCrit sd sden lead b) = true := by
          simp [hb, hm]
        rw [if_pos hpred]
        congr 1
        apply List.filter_congr
        intro x hx
        have hxb : x.id ≠ b.id := fun he => (hhead x hx) he.symm
        simp [hxb]
      · simp [collectMatches, hb, hm, ih used htail]

/-- The used set returned by the inner loop holds exactly the ids it
started with plus the ids of the batches it collected. -/
lemma collectMatches_snd (sd sden : Bool) (lead : BatchOrderInput) :
    ∀ (l : List BatchOrderInput) (used : List String) (s : String),
      s ∈ (collectMatches sd sden lead l used).2 ↔
        s ∈ (collectMatches sd sden lead l used).1.map (fun b => b.id) ∨ s ∈ used := by
  intro l
  induction l with
  | nil => intro used s; simp [collectMatches]
  | cons b rest ih =>
    intro used s
    by_cases hb : b.id ∈ used
    · simp [collectMatches, hb, ih used s]
    · have hb2 : ¬ used.contains b.id = true := fun hc => hb (List.elem_iff.mp hc)
      by_cases hm : matchesCrit sd sden lead b = true
      · simp only [collectMatches, if_neg hb2, if_pos hm]
        rw [ih (b.id :: used) s]
        simp only [List.map_cons, List.mem_cons, List.mem_map]
        constructor
        · rintro (hex | rfl | hu)
          · exact Or.inl (Or.inr hex)
          · exact Or.inl (Or.inl rfl)
          · exact Or.inr hu
        · rintro ((rfl | hex) | hu)
          · exact Or.inr (Or.inl rfl)
          · exact Or.inl hex
          · exact Or.inr (Or.inr hu)
      · simp [collectMatches, hb, hm, ih used s]

/-- The outer grouping loop emits, in some order, exactly the batches
whose id is not yet used: the gate len(group) >= 1 always passes, so
every batch (matching or not) reaches the result exactly once. -/
lemma groupPass_perm (sd sden : Bool) :
    ∀ (l : List BatchOrderInput) (used : List String),
      l.Pairwise (fun a b => a.id ≠ b.id) →
      List.Perm (groupPass sd sden l used) (l.filter (fun b => !used.contains b.id)) := by
  intro l
  induction l with
  | nil => intro used h; simp [groupPass]
  | cons b rest ih =>
    intro used h
    have htail := (List.pairwise_cons.mp h).2
    have hhead := (List.pairwise_cons.mp h).1
    by_cases hb : b.id ∈ used
    · have hskip : groupPass sd sden (b :: rest) used = groupPass sd sden rest used := by
        simp [groupPass, hb]
      have hf : (b :: rest).filter (fun x => !used.contains x.id) =
          rest.filter (fun x => !used.contains x.id) := by
        simp [List.filter_cons, hb]
      rw [hskip, hf]
      exact ih used htail
    · have hb2 : ¬ used.contains b.id = true := fun hc => hb (List.elem_iff.mp hc)
      have hstep : groupPass sd sden (b :: rest) used =
          (b :: (collectMatches sd sden b rest (b.id :: used)).1) ++
            groupPass sd sden rest (collectMatches sd sden b rest (b.id :: used)).2 := by
        simp only [groupPass, if_neg hb2]
      set g := (collectMatches sd sden b rest (b.id :: used)).1 with hgdef
      set u := (collectMatches sd sden b rest (b.id :: used)).2 with hudef
      have hg : g = rest.filter (fun x => !used.contains x.id && matchesCrit sd sden b x) := by
        rw [hgdef, collectMatches_fst sd sden b rest (b.id :: used) htail]
        apply List.filter_congr
        intro x hx
        have hxb : x.id ≠ b.id := fun he => (hhead x hx) he.symm
        simp [hxb]
      have hfb : (b :: rest).filter (fun x => !used.contains x.id) =
          b :: rest.filter (fun x => !used.contains x.id) := by
        simp [List.filter_cons, hb]
      rw [hstep, hfb, List.cons_append]
      refine List.Perm.cons b ?_
      have hihu : List.Perm (groupPass sd sden rest u)
          (rest.filter (fun x => !u.contains x.id)) := ih u htail
      have hfu : rest.filter (fun x => !u.contains x.id) =
          rest.filter (fun x => !used.contains x.id && !matchesCrit sd sden b x) := by
        apply List.filter_congr
        intro x hx
        have hxb : x.id ≠ b.id := fun he => (hhead x hx) he.symm
        have hmemu : x.id ∈ u ↔ x ∈ g ∨ x.id ∈ used := by
          rw [hudef, collectMatches_snd sd sden b rest (b.id :: used) x.id]
          constructor
          · rintro (hmap | hbu)
            · left
              obtain ⟨y, hy, hys⟩ := List.mem_map.mp hmap
              have hyr : y ∈ rest := by
                have hy2 := hy
                rw [← hgdef, hg] at hy2
                exact List.mem_of_mem_filter hy2
              have hxy : x = y := pairwise_id_inj htail x hx y hyr hys.symm
              rw [hxy]
              exact hy
            · rcases List.mem_cons.mp hbu with he | hu2
              · exact absurd he hxb
              · right; exact hu2
          · rintro (hxg | hxu)
            · exact Or.inl (List.mem_map.mpr ⟨x, hxg, rfl⟩)
            · exact Or.inr (List.mem_cons_of_mem _ hxu)
        have hxg : x ∈ g ↔ (¬(x.id ∈ used) ∧ matchesCrit sd sden b x = true) := by
          rw [hg, List.mem_filter]
          simp [hx]
        rcases Bool.eq_false_or_eq_true (matchesCrit sd sden b x) with hM | hM <;>
          by_cases hU : x.id ∈ used <;> by_cases hUu : x.id ∈ u <;>
            simp_all
      have hand1 : rest.filter (fun x => !used.contains x.id && matchesCrit sd sden b x) =
          (rest.filter (fun x => !used.contains x.id)).filter
            (fun x => matchesCrit sd sden b x) := by
        rw [List.filter_filter]
        apply List.filter_congr
        intro x _
        rw [Bool.and_comm]
      have hand2 : rest.filter (fun x => !used.contains x.id && !matchesCrit sd sden b x) =
          (rest.filter (fun x => !used.contains x.id)).filter
            (fun x => !matchesCrit sd sden b x) := by
        rw [List.filter_filter]
        apply List.filter_congr
        intro x _
        rw [Bool.and_comm]
      have step1 : List.Perm (g ++ groupPass sd sden rest u)
          (g ++ rest.filter (fun x => !used.contains x.id && !matchesCrit sd sden b x)) := by
        rw [← hfu]
        exact List.Perm.append_left g hihu
      have step2 : g ++ rest.filter (fun x => !used.contains x.id && !matchesCrit sd sden b x) =
          (rest.filter (fun x => !used.contains x.id)).filter
            (fun x => matchesCrit sd sden b x) ++
          (rest.filter (fun x => !used.contains x.id)).filter
            (fun x => !matchesCrit sd sden b x) := by
        rw [hg, hand1, hand2]
      exact step1.trans (by rw [step2]; exact List.filter_append_perm _ _)

/-- A single grouping pass emits a permutation of its input. -/
lemma group_by_perm (sd sden : Bool) (batches : List BatchOrderInput)
    (h : batches.Pairwise (fun a b => a.id ≠ b.id)) :
    List.Perm (group_by_drug_and_density batches sd sden) batches := by
  unfold group_by_drug_and_density
  by_cases hemp : batches = []
  · simp [hemp]
  · rw [if_neg hemp]
    have hp := groupPass_perm sd sden batches [] h
    simpa using hp

/-- Sorting by (drug, density) preserves pairwise distinct ids. -/
lemma sorted_pairwise_ids (batches : List BatchOrderInput)
    (h : batches.Pairwise (fun a b => a.id ≠ b.id)) :
    (batches.insertionSort batchKeyLe).Pairwise (fun a b => a.id ≠ b.id) := by
  refine ((List.perm_insertionSort batchKeyLe batches).pairwise_iff ?_).mpr h
  intro x y hxy
  exact fun he => hxy he.symm

/-- Each of the three grouping passes of group_batches emits a
permutation of the full input. -/
lemma group_batches_pass_perm (batches : List BatchOrderInput)
    (h : batches.Pairwise (fun a b => a.id ≠ b.id)) (sd sden : Bool) :
    List.Perm (group_by_drug_and_density (batches.insertionSort batchKeyLe) sd sden)
      batches :=
  (group_by_perm sd sden _ (sorted_pairwise_ids batches h)).trans
    (List.perm_insertionSort _ _)

/-- Any group emitted by group_batches is one of the three fixed
records, with its batch list equal to the corresponding pass and its
emission gate satisfied. -/
lemma group_batches_cases (batches : List BatchOrderInput) (g : ScheduleGroupOutput)
    (hg : g ∈ group_batches batches) :
    ∃ sd sden : Bool,
      g.batches = group_by_drug_and_density (batches.insertionSort batchKeyLe) sd sden ∧
      ((g.type = "same-drug-same-density" ∧ sd = true ∧ sden = true ∧
          2 ≤ g.batches.length) ∨
       (g.type = "same-drug-diff-density" ∧ sd = true ∧ sden = false ∧
          2 ≤ g.batches.length) ∨
       (g.type = "diff-drug-diff-density" ∧ sd = false ∧ sden = false ∧
          g.batches ≠ [])) := by
  simp only [group_batches, List.mem_append] at hg
  rcases hg with (hg1 | hg2) | hg3
  · by_cases hc : SchedulingConfig.MIN_BATCH_GROUP_SIZE ≤
        (group_by_drug_and_density (batches.insertionSort batchKeyLe) true true).length
    · rw [if_pos hc, List.mem_singleton] at hg1
      subst hg1
      exact ⟨true, true, rfl, Or.inl ⟨rfl, rfl, rfl,
        by simpa [SchedulingConfig.MIN_BATCH_GROUP_SIZE] using hc⟩⟩
    · rw [if_neg hc] at hg1
      simp at hg1
  · by_cases hc : SchedulingConfig.MIN_BATCH_GROUP_SIZE ≤
        (group_by_drug_and_density (batches.insertionSort batchKeyLe) true false).length
    · rw [if_pos hc, List.mem_singleton] at hg2
      subst hg2
      exact ⟨true, false, rfl, Or.inr (Or.inl ⟨rfl, rfl, rfl,
        by simpa [SchedulingConfig.MIN_BATCH_GROUP_SIZE] using hc⟩)⟩
    · rw [if_neg hc] at hg2
      simp at hg2
  · by_cases hc : group_by_drug_and_density (batches.insertionSort batchKeyLe) false false ≠ []
    · rw [if_pos hc, List.mem_singleton] at hg3
      subst hg3
      exact ⟨false, false, rfl, Or.inr (Or.inr ⟨rfl, rfl, rfl, hc⟩)⟩
    · rw [if_neg hc] at hg3
      simp at hg3

/-- For a non-empty input the different-drug group is always emitted. -/
lemma group_batches_third (batches : List BatchOrderInput)
    (h : batches.Pairwise (fun a b => a.id ≠ b.id)) (hne : batches ≠ []) :
    ∃ g ∈ group_batches batches, g.type = "diff-drug-diff-density" := by
  have hperm := group_batches_pass_perm batches h false false
  have hne2 : group_by_drug_and_density (batches.insertionSort batchKeyLe) false false ≠ [] := by
    intro he
    rw [he] at hperm
    exact hne (hperm.symm.eq_nil)
  refine ⟨⟨"diff-drug-diff-density", "Different Drug + Different Density",
      group_by_drug_and_density (batches.insertionSort batchKeyLe) false false,
      "full", SchedulingConfig.FULL_CLEANING_TIME,
      ((group_by_drug_and_density (batches.insertionSort batchKeyLe) false false).length : ℤ) *
        SchedulingConfig.DIFF_DRUG_DIFF_DENSITY_SAVINGS,
      3, "rose"⟩, ?_, rfl⟩
  simp only [group_batches]
  refine List.mem_append_right _ ?_
  rw [if_pos hne2]
  exact List.mem_singleton.mpr rfl

/-- C6: with pairwise distinct ids, every group emitted by
group_batches carries the entire input: its batch list is a permutation
of the input, contains each input batch exactly once, and repeats no
id. -/
theorem c6_group_batches_partition (batches : List BatchOrderInput)
    (h : batches.Pairwise (fun a b => a.id ≠ b.id)) :
    ∀ g ∈ group_batches batches,
      List.Perm g.batches batches ∧
      (∀ b ∈ batches, g.batches.count b = 1) ∧
      (g.batches.map (fun b => b.id)).Nodup := by
  intro g hg
  obtain ⟨sd, sden, hb, -⟩ := group_batches_cases batches g hg
  have hperm : List.Perm g.batches batches := by
    rw [hb]; exact group_batches_pass_perm batches h sd sden
  have hnodup : batches.Nodup := h.imp (fun hab heq => hab (by rw [heq]))
  refine ⟨hperm, ?_, ?_⟩
  · intro b hbm
    rw [hperm.count_eq]
    exact List.count_eq_one_of_mem hnodup hbm
  · have hmn : (batches.map (fun b => b.id)).Nodup := by
      have hp : (batches.map (fun b => b.id)).Pairwise (fun a b => a ≠ b) := by
        rw [List.pairwise_map]
        exact h
      exact hp
    exact ((hperm.map (fun b => b.id)).nodup_iff).mpr hmn

/-- C6 witness: a single-batch queue; its emitted group carries it. -/
theorem c6_witness :
    List.Perm (⟨"diff-drug-diff-density", "Different Drug + Different Density",
      [⟨"a", "n1", "p1", "DrugX", "low", "queued", 1, none⟩], "full", 45, 5,
      3, "rose"⟩ : ScheduleGroupOutput).batches
      [⟨"a", "n1", "p1", "DrugX", "low", "queued", 1, none⟩] :=
  (c6_group_batches_partition [⟨"a", "n1", "p1", "DrugX", "low", "queued", 1, none⟩]
    (by simp) _ (by decide)).1

/-- C5: with pairwise distinct ids, whenever the same-drug-same-density
group is emitted any two batches of equal drug and density both occur
in it (its batch list is the whole queue); the first two categories are
emitted only at size at least 2, the different-drug group at any
non-zero size, and it is emitted whenever the queue is non-empty. -/
theorem c5_group_batches_emission (batches : List BatchOrderInput)
    (h : batches.Pairwise (fun a b => a.id ≠ b.id)) :
    (∀ g ∈ group_batches batches, g.type = "same-drug-same-density" →
      ∀ b1 ∈ batches, ∀ b2 ∈ batches, b1.drug = b2.drug → b1.density = b2.density →
        b1 ∈ g.batches ∧ b2 ∈ g.batches) ∧
    (∀ g ∈ group_batches batches,
      (g.type = "same-drug-same-density" ∨ g.type = "same-drug-diff-density") →
        2 ≤ g.batches.length) ∧
    (∀ g ∈ group_batches batches, g.type = "diff-drug-diff-density" →
      g.batches ≠ []) ∧
    (batches ≠ [] → ∃ g ∈ group_batches batches, g.type = "diff-drug-diff-density") := by
  refine ⟨?_, ?_, ?_, group_batches_third batches h⟩
  · intro g hg _ b1 hb1 b2 hb2 _ _
    obtain ⟨sd, sden, hb, -⟩ := group_batches_cases batches g hg
    have hperm : List.Perm g.batches batches := by
      rw [hb]; exact group_batches_pass_perm batches h sd sden
    exact ⟨hperm.mem_iff.mpr hb1, hperm.mem_iff.mpr hb2⟩
  · intro g hg hty
    obtain ⟨sd, sden, hb, hcase⟩ := group_batches_cases batches g hg
    rcases hcase with ⟨-, -, -, hlen⟩ | ⟨-, -, -, hlen⟩ | ⟨hty3, -, -, -⟩
    · exact hlen
    · exact hlen
    · rw [hty3] at hty
      rcases hty with he | he <;> exact absurd he (by decide)
  · intro g hg hty
    obtain ⟨sd, sden, hb, hcase⟩ := group_batches_cases batches g hg
    rcases hcase with ⟨hty1, -, -, -⟩ | ⟨hty1, -, -, -⟩ | ⟨-, -, -, hne⟩
    · rw [hty1] at hty; exact absurd hty (by decide)
    · rw [hty1] at hty; exact absurd hty (by decide)
    · exact hne

/-- C5 witness: a single-batch queue emits the different-drug group
with a non-empty batch list. -/
theorem c5_witness :
    (⟨"diff-drug-diff-density", "Different Drug + Different Density",
      [⟨"a", "n1", "p1", "DrugX", "low", "queued", 1, none⟩], "full", 45, 5,
      3, "rose"⟩ : ScheduleGroupOutput).batches ≠ [] :=
  (c5_group_batches_emission [⟨"a", "n1", "p1", "DrugX", "low", "queued", 1, none⟩]
    (by simp)).2.2.1 _ (by decide) rfl
